import Mathlib

/-
Verification development for the lcp-go relay Enclave-Key Lifecycle Manager (EKLM).

This file shallowly embeds the relevant parts of src/relay/prover.go:
the candidate-selection pipeline (selectNewEnclaveKey and the two policy
validators), the EKLM tick (UpdateEKIfNeeded / loadEKIAndCheckUpdateNeeded /
checkEKIUpdateNeeded / checkMsgStatus), the registration path
(registerEnclaveKey), and the on-chain LCP client-state handlers
(verifyRegisterEnclaveKey, registerEnclaveKey and updateClient of
ClientState).

Modelling conventions:
- Machine times are modelled in nanoseconds as Nat.  Go's
  time.Duration(KeyExpiration) * time.Second / 2 is KeyExpiration * 5*10^8 ns
  exactly, so no rounding is lost.
- byte-array valued data (addresses, MRENCLAVE, signatures, certificates)
  are modelled as Nat identifiers; the zero address is 0.
- External collaborators (the LCP gRPC service, the destination chain, the
  IAS report verifier and AVR parser from the sgx/ias package, and the
  EIP-712 operator signer) are modelled as oracle fields of a World record:
  each oracle is a pure function, reflecting that within a single tick the
  code observes a fixed response for each request.
- Fallible operations return Option or Except; a Go `return err` is the
  error branch.
- The persistent key store implementation is not part of the given source
  (only its call sites are), so it is modelled from the spec, see Store.
- The in-memory EKLM state snapshots reached at observation points are
  collected in a trace list so that state invariants can be stated over
  every observation point.
-/

/-- IBC revision height, as in ibc-go clienttypes.Height. -/
structure Height where
  revisionNumber : Nat
  revisionHeight : Nat
deriving DecidableEq, Repr

/-- Height.LT of ibc-go: lexicographic on (revisionNumber, revisionHeight). -/
def Height.lt (a b : Height) : Bool :=
  decide (a.revisionNumber < b.revisionNumber) ||
    (decide (a.revisionNumber = b.revisionNumber) &&
      decide (a.revisionHeight < b.revisionHeight))

/-- Height.LTE of ibc-go: less-than or equal. -/
def Height.lte (a b : Height) : Bool :=
  Height.lt a b || decide (a = b)

/-- enclave.EnclaveKeyInfo: a candidate enclave key returned by the LCP
service, carrying the raw AVR report, the IAS signature and certificate and
the attestation time (seconds since epoch). -/
structure EnclaveKeyInfo where
  enclaveKeyAddress : Nat
  attestationTime : Nat
  report : String
  signature : Nat
  signingCert : Nat
deriving DecidableEq, Repr

/-- Parsed Attestation Verification Report, as produced by
ias.ParseAndValidateAVR together with the quote fields extracted by
avr.Quote() and ias.GetEKAndOperator: ISV quote status (the QuoteOK status
prints as the string OK), advisory IDs, the AVR timestamp in seconds, the
quote MRENCLAVE, and the report-data enclave key address and expected
operator address (0 encodes the all-zero address). -/
structure AVR where
  isvEnclaveQuoteStatus : String
  advisoryIDs : List String
  timestampSec : Nat
  mrenclave : Nat
  enclaveKeyAddress : Nat
  expectedOperator : Nat
deriving DecidableEq, Repr

/-- The string form of oias.QuoteOK. -/
def QuoteOK : String := "OK"

/-- ProverConfig: the relay-side configuration fields used by the EKLM. -/
structure ProverConfig where
  mrenclave : Nat
  keyExpiration : Nat
  allowedQuoteStatuses : List String
  allowedAdvisoryIds : List String
  operatorEnabled : Bool
deriving DecidableEq, Repr

/-- lcptypes.ClientState: the on-chain LCP client state (also the state the
relay unpacks from the counterparty query in registerEnclaveKey). -/
structure LCPClientState where
  latestHeight : Height
  mrenclave : Nat
  keyExpiration : Nat
  allowedQuoteStatuses : List String
  allowedAdvisoryIds : List String
  operators : List Nat
deriving DecidableEq, Repr

/-- Result of core.Chain.GetMsgResult: execution status flag and inclusion
block height. -/
structure MsgResult where
  okStatus : Bool
  blockHeight : Height
deriving DecidableEq, Repr

/-- RegisterEnclaveKeyMessage built by the relay and verified on chain. -/
structure RegisterEnclaveKeyMessage where
  report : String
  signature : Nat
  signingCert : Nat
  operatorSignature : Option Nat
deriving DecidableEq, Repr

/-- Oracles for all external collaborators observed during one EKLM tick:
the LCP service, the destination (counterparty) chain, the IAS verifier and
AVR parser, and the EIP-712 operator signer.  A `none` response of an
oracle models the corresponding Go call returning an error. -/
structure World where
  availableEnclaveKeys : Nat → List EnclaveKeyInfo
  verifyReport : String → Nat → Nat → Nat → Bool
  parseAVR : String → Option AVR
  enclaveKeyKnown : Nat → Bool
  getMsgResult : Nat → Option MsgResult
  getLatestFinalizedHeader : Option Height
  counterpartyClientState : Option LCPClientState
  operatorAddress : Option Nat
  operatorSignature : Option Nat
  sendMsgIDs : List Nat

/-- In-memory EKLM state of the Prover: the active enclave key and, when the
registration is not yet finalized, its message ID. -/
structure PState where
  activeEnclaveKey : Option EnclaveKeyInfo
  unfinalizedMsgID : Option Nat
deriving DecidableEq, Repr

/-- Modelled from the spec: the Persistent Key Store (section 4.3) is not
part of the given source, only its call sites are.  Per the spec it holds
the last finalized record and at most one unfinalized record (an
EnclaveKeyInfo together with the registration message ID); SaveFinalized,
SaveUnfinalized and RemoveUnfinalized replace or clear the corresponding
slot. -/
structure Store where
  finalized : Option EnclaveKeyInfo
  unfinalized : Option (EnclaveKeyInfo × Nat)
deriving DecidableEq, Repr

/-- Nanosecond instant of Go updateTime = attestationTime +
Duration(KeyExpiration) * Second / 2 in checkEKIUpdateNeeded. -/
def updateTimeNs (cfg : ProverConfig) (eki : EnclaveKeyInfo) : Nat :=
  eki.attestationTime * 1000000000 + cfg.keyExpiration * 500000000

/-- Prover.checkEKIUpdateNeeded: true iff now is strictly after the half-life
instant, or the LCP service query for the key errors (key unknown). -/
def checkEKIUpdateNeeded (w : World) (cfg : ProverConfig) (nowNs : Nat)
    (eki : EnclaveKeyInfo) : Bool :=
  if nowNs > updateTimeNs cfg eki then true
  else if w.enclaveKeyKnown eki.enclaveKeyAddress then false
  else true

/-- Prover.validateISVEnclaveQuoteStatus: QuoteOK is always allowed,
otherwise the status string must be in the configured list. -/
def validateISVEnclaveQuoteStatus (cfg : ProverConfig) (s : String) : Bool :=
  if s = QuoteOK then true
  else cfg.allowedQuoteStatuses.contains s

/-- Prover.validateAdvisoryIDs: an empty list is allowed, otherwise the set
difference of the IDs minus the allowed IDs must be empty, that is every ID
must be allowed. -/
def validateAdvisoryIDs (cfg : ProverConfig) (ids : List String) : Bool :=
  if ids.length = 0 then true
  else ids.all (fun id => cfg.allowedAdvisoryIds.contains id)

/-- Errors surfaced by selectNewEnclaveKey. -/
inductive SelectErr where
  | noKeys
  | verifyFailed
  | parseFailed
  | allNotAllowed
deriving DecidableEq, Repr

/-- The loop body of Prover.selectNewEnclaveKey over the candidate list: a
failed IAS report verification or AVR parse aborts the whole selection with
an error; a candidate rejected by the expiration check, the quote-status
check or the advisory-ID check is skipped; the first candidate passing all
three is returned. -/
def selectLoop (w : World) (cfg : ProverConfig) (nowNs : Nat) :
    List EnclaveKeyInfo → Except SelectErr EnclaveKeyInfo
  | [] => .error .allNotAllowed
  | eki :: rest =>
    if w.verifyReport eki.report eki.signature eki.signingCert nowNs = false then
      .error .verifyFailed
    else
      match w.parseAVR eki.report with
      | none => .error .parseFailed
      | some avr =>
        if checkEKIUpdateNeeded w cfg nowNs eki then
          selectLoop w cfg nowNs rest
        else if validateISVEnclaveQuoteStatus cfg avr.isvEnclaveQuoteStatus = false then
          selectLoop w cfg nowNs rest
        else if validateAdvisoryIDs cfg avr.advisoryIDs = false then
          selectLoop w cfg nowNs rest
        else
          .ok eki

/-- Prover.selectNewEnclaveKey: query AvailableEnclaveKeys for the configured
MRENCLAVE, fail if the list is empty, otherwise run the selection loop. -/
def selectNewEnclaveKey (w : World) (cfg : ProverConfig) (nowNs : Nat) :
    Except SelectErr EnclaveKeyInfo :=
  let keys := w.availableEnclaveKeys cfg.mrenclave
  if keys.length = 0 then .error .noKeys
  else selectLoop w cfg nowNs keys

/-- Prover.checkMsgStatus: fetch the latest finalized header and the message
result (either failing propagates the error as none); a failed execution
yields (false, false); otherwise finalized iff the inclusion height is at
most the latest finalized height, paired with success = true. -/
def checkMsgStatus (w : World) (msgID : Nat) : Option (Bool × Bool) :=
  match w.getLatestFinalizedHeader with
  | none => none
  | some lf =>
    match w.getMsgResult msgID with
    | none => none
    | some res =>
      if res.okStatus = false then some (false, false)
      else some (Height.lte res.blockHeight lf, true)

/-- Outcome of loadEKIAndCheckUpdateNeeded: the returned value (error, or the
update-needed flag), the in-memory state and the store afterwards, and the
trace of in-memory state snapshots at the observation points passed. -/
structure StepOut where
  ret : Except Unit Bool
  st : PState
  store : Store
  trace : List PState
deriving Repr

/-- The finalized-key branch (Case B) of loadEKIAndCheckUpdateNeeded: the
in-memory state holds eki with no unfinalized message ID; return the
checkEKIUpdateNeeded flag, leaving state and store unchanged. -/
def caseBFinalized (w : World) (cfg : ProverConfig) (nowNs : Nat)
    (eki : EnclaveKeyInfo) (store : Store) (tr : List PState) : StepOut :=
  let st : PState := ⟨some eki, none⟩
  ⟨.ok (checkEKIUpdateNeeded w cfg nowNs eki), st, store, tr ++ [st]⟩

/-- The unfinalized-key branch (Case C) of loadEKIAndCheckUpdateNeeded: probe
the destination chain for the registration message.  Not found: remove the
unfinalized record and report update needed.  Found and failed: likewise.
Found, succeeded and finalized: if checkEKIUpdateNeeded reports rotation due,
return true immediately (no promotion); otherwise save the key as finalized,
remove the unfinalized record, clear the message ID and return false.
Found, succeeded, not yet finalized: return the checkEKIUpdateNeeded flag. -/
def caseCUnfinalized (w : World) (cfg : ProverConfig) (nowNs : Nat)
    (eki : EnclaveKeyInfo) (msgID : Nat) (store : Store) (tr : List PState) : StepOut :=
  let st : PState := ⟨some eki, some msgID⟩
  match w.getMsgResult msgID with
  | none => ⟨.ok true, st, ⟨store.finalized, none⟩, tr ++ [st, st]⟩
  | some _ =>
    match checkMsgStatus w msgID with
    | none => ⟨.error (), st, store, tr ++ [st]⟩
    | some (fin, succ) =>
      if succ = false then
        ⟨.ok true, st, ⟨store.finalized, none⟩, tr ++ [st, st]⟩
      else if fin then
        if checkEKIUpdateNeeded w cfg nowNs eki then
          ⟨.ok true, st, store, tr ++ [st]⟩
        else
          let st2 : PState := ⟨some eki, none⟩
          ⟨.ok false, st2, ⟨some eki, none⟩, tr ++ [st, st, st2]⟩
      else
        ⟨.ok (checkEKIUpdateNeeded w cfg nowNs eki), st, store, tr ++ [st]⟩

/-- Prover.loadEKIAndCheckUpdateNeeded: when no key is in memory, load the
last unfinalized record (falling through to Case C) or else the last
finalized record (falling through to Case B) or else report that a new key
is needed; when a key is in memory, dispatch on whether its registration is
finalized. -/
def loadEKIAndCheckUpdateNeeded (w : World) (cfg : ProverConfig) (nowNs : Nat)
    (st : PState) (store : Store) : StepOut :=
  match st.activeEnclaveKey with
  | some eki =>
    match st.unfinalizedMsgID with
    | none => caseBFinalized w cfg nowNs eki store [st]
    | some msgID => caseCUnfinalized w cfg nowNs eki msgID store [st]
  | none =>
    match store.unfinalized with
    | some (eki, msgID) =>
      caseCUnfinalized w cfg nowNs eki msgID store ([st] ++ [⟨some eki, some msgID⟩])
    | none =>
      match store.finalized with
      | none => ⟨.ok true, st, store, [st]⟩
      | some eki => caseBFinalized w cfg nowNs eki store ([st] ++ [⟨some eki, none⟩])

/-- Outcome of the relay-side registerEnclaveKey: the message ID on success,
and the list of messages actually submitted to the destination chain. -/
structure RegOut where
  ret : Except Unit Nat
  submitted : List RegisterEnclaveKeyMessage
deriving Repr

/-- The submission tail of Prover.registerEnclaveKey: SendMsgs with the
single composed message; exactly one returned message ID is required. -/
def submitRegister (w : World) (msg : RegisterEnclaveKeyMessage) : RegOut :=
  match w.sendMsgIDs with
  | [id] => ⟨.ok id, [msg]⟩
  | _ => ⟨.error (), [msg]⟩

/-- Prover.registerEnclaveKey: verify the IAS report, parse the AVR and
extract the quote fields, query the counterparty client state, require its
MRENCLAVE to equal the quote MRENCLAVE, then (when operator signing is
enabled) require the configured operator to be in the client-state operator
set and to equal a non-zero report-data expected operator, attach the
EIP-712 operator signature, and only then submit the message. -/
def registerEnclaveKeyRelay (w : World) (cfg : ProverConfig) (nowNs : Nat)
    (eki : EnclaveKeyInfo) : RegOut :=
  if w.verifyReport eki.report eki.signature eki.signingCert nowNs = false then
    ⟨.error (), []⟩
  else
    match w.parseAVR eki.report with
    | none => ⟨.error (), []⟩
    | some avr =>
      match w.counterpartyClientState with
      | none => ⟨.error (), []⟩
      | some cs =>
        if cs.mrenclave ≠ avr.mrenclave then ⟨.error (), []⟩
        else if cfg.operatorEnabled then
          match w.operatorAddress with
          | none => ⟨.error (), []⟩
          | some op =>
            if cs.operators.contains op = false then ⟨.error (), []⟩
            else if avr.expectedOperator ≠ 0 ∧ op ≠ avr.expectedOperator then
              ⟨.error (), []⟩
            else
              match w.operatorSignature with
              | none => ⟨.error (), []⟩
              | some sig =>
                submitRegister w ⟨eki.report, eki.signature, eki.signingCert, some sig⟩
        else
          submitRegister w ⟨eki.report, eki.signature, eki.signingCert, none⟩

/-- Outcome of one whole UpdateEKIfNeeded tick. -/
structure TickOut where
  ret : Except Unit Unit
  st : PState
  store : Store
  trace : List PState
  submitted : List RegisterEnclaveKeyMessage
deriving Repr

/-- Prover.UpdateEKIfNeeded: run loadEKIAndCheckUpdateNeeded; when no update
is needed (or it errored) stop; otherwise clear the in-memory state, select
a new candidate, register it, probe the message status, and persist the key
as finalized (instant finality) or unfinalized before setting it in
memory. -/
def UpdateEKIfNeeded (w : World) (cfg : ProverConfig) (nowNs : Nat)
    (st : PState) (store : Store) : TickOut :=
  let r := loadEKIAndCheckUpdateNeeded w cfg nowNs st store
  match r.ret with
  | .error _ => ⟨.error (), r.st, r.store, r.trace, []⟩
  | .ok false => ⟨.ok (), r.st, r.store, r.trace, []⟩
  | .ok true =>
    let st1 : PState := ⟨none, none⟩
    let tr1 := r.trace ++ [st1]
    match selectNewEnclaveKey w cfg nowNs with
    | .error _ => ⟨.error (), st1, r.store, tr1, []⟩
    | .ok eki =>
      let reg := registerEnclaveKeyRelay w cfg nowNs eki
      match reg.ret with
      | .error _ => ⟨.error (), st1, r.store, tr1, reg.submitted⟩
      | .ok msgID =>
        match checkMsgStatus w msgID with
        | none => ⟨.error (), st1, r.store, tr1, reg.submitted⟩
        | some (fin, succ) =>
          if succ = false then ⟨.error (), st1, r.store, tr1, reg.submitted⟩
          else if fin then
            let st2 : PState := ⟨some eki, none⟩
            ⟨.ok (), st2, ⟨some eki, r.store.unfinalized⟩, tr1 ++ [st2], reg.submitted⟩
          else
            let st2 : PState := ⟨some eki, some msgID⟩
            ⟨.ok (), st2, ⟨r.store.finalized, some (eki, msgID)⟩, tr1 ++ [st2], reg.submitted⟩

/-- Association-list lookup used to model KV-store reads. -/
def lookupPairs {α β : Type} [DecidableEq α] : α → List (α × β) → Option β
  | _, [] => none
  | k, (a, b) :: rest => if k = a then some b else lookupPairs k rest

/-- ConsensusState persisted by the on-chain LCP client. -/
structure OnChainConsensusState where
  stateId : Nat
  timestampU : Nat
deriving DecidableEq, Repr

/-- The client KV store of the on-chain LCP client, modelled as association
lists: registered enclave keys (address to expiredAt seconds, as written by
AddEnclaveKey), the persisted client state and the consensus states keyed by
height.  Writes prepend so that lookups see the newest value. -/
structure ClientStore where
  enclaveKeys : List (Nat × Nat)
  clientState : Option LCPClientState
  consensusStates : List (Height × OnChainConsensusState)
deriving DecidableEq, Repr

/-- Events emitted by the on-chain handlers. -/
inductive ChainEvent where
  | registeredEnclaveKey (addr : Nat) (expiredAt : Nat)
deriving DecidableEq, Repr

/-- ClientState.isAllowedStatus of the on-chain client. -/
def isAllowedStatus (cs : LCPClientState) (status : String) : Bool :=
  if status = QuoteOK then true
  else cs.allowedQuoteStatuses.contains status

/-- ClientState.isAllowedAdvisoryIDs of the on-chain client: empty list
allowed, otherwise all IDs must be contained in the allowed set. -/
def isAllowedAdvisoryIDs (cs : LCPClientState) (advIDs : List String) : Bool :=
  if advIDs.length = 0 then true
  else advIDs.all (fun id => cs.allowedAdvisoryIds.contains id)

/-- ClientState.GetEnclaveKeyExpiredAt: look the address up in the client
store, returning the stored expiration seconds when present. -/
def getEnclaveKeyExpiredAt (store : ClientStore) (addr : Nat) : Option Nat :=
  lookupPairs addr store.enclaveKeys

/-- ClientState.verifyRegisterEnclaveKey: verify the IAS report at block
time, parse the AVR, enforce that an OK quote status carries no advisory
IDs and that a non-OK status and all advisory IDs are allowed, check the
MRENCLAVE, recompute expiredAt as the AVR timestamp plus the key expiration
and, when the enclave key address is already stored, require the stored
expiration to equal the recomputed one. -/
def verifyRegisterEnclaveKey (w : World) (blockTimeNs : Nat) (cs : LCPClientState)
    (store : ClientStore) (msg : RegisterEnclaveKeyMessage) : Except Unit Unit :=
  if w.verifyReport msg.report msg.signature msg.signingCert blockTimeNs = false then
    .error ()
  else
    match w.parseAVR msg.report with
    | none => .error ()
    | some avr =>
      if avr.isvEnclaveQuoteStatus = QuoteOK then
        if avr.advisoryIDs.length ≠ 0 then .error ()
        else verifyRegisterEnclaveKeyTail cs store avr
      else
        if isAllowedStatus cs avr.isvEnclaveQuoteStatus = false then .error ()
        else if isAllowedAdvisoryIDs cs avr.advisoryIDs = false then .error ()
        else verifyRegisterEnclaveKeyTail cs store avr
where
  /-- The quote and duplicate-key checks shared by both status branches. -/
  verifyRegisterEnclaveKeyTail (cs : LCPClientState) (store : ClientStore)
      (avr : AVR) : Except Unit Unit :=
    if cs.mrenclave ≠ avr.mrenclave then .error ()
    else
      match getEnclaveKeyExpiredAt store avr.enclaveKeyAddress with
      | some e =>
        if e = avr.timestampSec + cs.keyExpiration then .ok () else .error ()
      | none => .ok ()

/-- ClientState.registerEnclaveKey (the UpdateState half): parse the AVR
(none models the panic on a parse failure), recompute expiredAt, and if the
key is already stored only emit the RegisteredEnclaveKey event, leaving the
store unchanged; otherwise add the key with its expiration. -/
def registerEnclaveKeyUpdate (w : World) (cs : LCPClientState)
    (store : ClientStore) (msg : RegisterEnclaveKeyMessage) :
    Option (ClientStore × List ChainEvent) :=
  match w.parseAVR msg.report with
  | none => none
  | some avr =>
    let addr := avr.enclaveKeyAddress
    let expiredAt := avr.timestampSec + cs.keyExpiration
    if (lookupPairs addr store.enclaveKeys).isSome then
      some (store, [.registeredEnclaveKey addr expiredAt])
    else
      some (⟨(addr, expiredAt) :: store.enclaveKeys, store.clientState,
             store.consensusStates⟩, [])

/-- The decoded ELC message carried by an UpdateClientMessage, as far as
ClientState.updateClient reads it. -/
structure ELCMsgUpdate where
  postHeight : Height
  postStateID : Nat
  timestampU : Nat
deriving DecidableEq, Repr

/-- setClientState: persist the client state into the store. -/
def setClientState (store : ClientStore) (cs : LCPClientState) : ClientStore :=
  ⟨store.enclaveKeys, some cs, store.consensusStates⟩

/-- setConsensusState: persist a consensus state at the given height. -/
def setConsensusState (store : ClientStore) (c : OnChainConsensusState)
    (h : Height) : ClientStore :=
  ⟨store.enclaveKeys, store.clientState, (h, c) :: store.consensusStates⟩

/-- ClientState.updateClient (the UpdateState half for UpdateClientMessage):
raise LatestHeight to the message PostHeight when the current one is lower,
persist the client state, and persist a consensus state built from the
message at PostHeight. -/
def updateClient (cs : LCPClientState) (store : ClientStore)
    (emsg : ELCMsgUpdate) : ClientStore :=
  let cs2 : LCPClientState :=
    if Height.lt cs.latestHeight emsg.postHeight then
      ⟨emsg.postHeight, cs.mrenclave, cs.keyExpiration,
       cs.allowedQuoteStatuses, cs.allowedAdvisoryIds, cs.operators⟩
    else cs
  setConsensusState (setClientState store cs2)
    ⟨emsg.postStateID, emsg.timestampU⟩ emsg.postHeight

/-- Modelled from the spec: the Policy Engine rejection predicate of section
4.2 applied to a parsed AVR (checks 1 to 4, the non-temporal checks):
MRENCLAVE mismatch, OK status with outstanding advisories, disallowed
non-OK status, or a disallowed advisory ID. -/
def specPolicyRejects (cfg : ProverConfig) (avr : AVR) : Bool :=
  decide (avr.mrenclave ≠ cfg.mrenclave) ||
  (decide (avr.isvEnclaveQuoteStatus = QuoteOK) && decide (avr.advisoryIDs ≠ [])) ||
  (decide (avr.isvEnclaveQuoteStatus ≠ QuoteOK) &&
    !(cfg.allowedQuoteStatuses.contains avr.isvEnclaveQuoteStatus)) ||
  avr.advisoryIDs.any (fun id => !(cfg.allowedAdvisoryIds.contains id))

/-- Modelled from the spec: the Case B update-needed predicate of section
4.6 as the spec words it, namely the key is unknown to the LCP service, or
now is past the half-life instant, or the Policy Engine would now reject
the key (an unparsable AVR counts as rejected). -/
def checkEKIUpdateNeededSpec (w : World) (cfg : ProverConfig) (nowNs : Nat)
    (eki : EnclaveKeyInfo) : Bool :=
  !(w.enclaveKeyKnown eki.enclaveKeyAddress) ||
  decide (nowNs > updateTimeNs cfg eki) ||
  (match w.parseAVR eki.report with
   | none => true
   | some avr => specPolicyRejects cfg avr)

/-- The P1 invariant of the EKLM in-memory state: an unfinalized message ID
is only present when an active enclave key is present. -/
def invPS (s : PState) : Bool :=
  !s.unfinalizedMsgID.isSome || s.activeEnclaveKey.isSome

theorem Height.lte_self (a : Height) : Height.lte a a = true := by
  simp [Height.lte]

theorem Height.lte_of_lt {a b : Height} (h : Height.lt a b = true) :
    Height.lte a b = true := by
  simp [Height.lte, h]

theorem Height.lte_of_not_lt {a b : Height} (h : Height.lt a b = false) :
    Height.lte b a = true := by
  cases a with
  | mk an ah =>
    cases b with
    | mk bn bh =>
      simp [Height.lt] at h
      simp [Height.lte, Height.lt, Height.mk.injEq]
      omega

/-- C10: applying an UpdateClientMessage through ClientState.updateClient
never decreases the stored latest height: the persisted client state's
LatestHeight is the maximum of the previous LatestHeight and the message's
PostHeight (it is at least both and equal to one of them), and a consensus
state built from the message is written at PostHeight in every case. -/
theorem updateClient_latestHeight_max (cs : LCPClientState) (store : ClientStore)
    (emsg : ELCMsgUpdate) :
    ∃ cs2 : LCPClientState,
      (updateClient cs store emsg).clientState = some cs2 ∧
      Height.lte cs.latestHeight cs2.latestHeight = true ∧
      Height.lte emsg.postHeight cs2.latestHeight = true ∧
      (cs2.latestHeight = cs.latestHeight ∨ cs2.latestHeight = emsg.postHeight) ∧
      lookupPairs emsg.postHeight (updateClient cs store emsg).consensusStates
        = some ⟨emsg.postStateID, emsg.timestampU⟩ := by
  unfold updateClient setClientState setConsensusState
  by_cases hlt : Height.lt cs.latestHeight emsg.postHeight = true
  · refine ⟨⟨emsg.postHeight, cs.mrenclave, cs.keyExpiration,
      cs.allowedQuoteStatuses, cs.allowedAdvisoryIds, cs.operators⟩, ?_⟩
    simp [hlt, lookupPairs, Height.lte_of_lt hlt, Height.lte_self]
  · rw [Bool.not_eq_true] at hlt
    refine ⟨cs, ?_⟩
    simp [hlt, lookupPairs, Height.lte_of_not_lt hlt, Height.lte_self]

/-- C9: under the hypotheses that the report itself passes the IAS and
policy checks of the verifier, registering an enclave key address already
stored by the on-chain client is a no-op when the recomputed expiration (AVR timestamp
plus key expiration) equals the stored one: verification succeeds and the
update leaves the stored key set unchanged, only emitting an event; when
the recomputed expiration differs from the stored one, verification
rejects the message. -/
theorem registerEnclaveKey_duplicate_noop (w : World) (blockTimeNs : Nat)
    (cs : LCPClientState) (store : ClientStore) (msg : RegisterEnclaveKeyMessage)
    (avr : AVR) (e : Nat)
    (hverify : w.verifyReport msg.report msg.signature msg.signingCert blockTimeNs = true)
    (hparse : w.parseAVR msg.report = some avr)
    (hok : avr.isvEnclaveQuoteStatus = QuoteOK → avr.advisoryIDs = [])
    (hst : avr.isvEnclaveQuoteStatus ≠ QuoteOK →
      isAllowedStatus cs avr.isvEnclaveQuoteStatus = true)
    (hadv : avr.isvEnclaveQuoteStatus ≠ QuoteOK →
      isAllowedAdvisoryIDs cs avr.advisoryIDs = true)
    (hmr : cs.mrenclave = avr.mrenclave)
    (hstored : getEnclaveKeyExpiredAt store avr.enclaveKeyAddress = some e) :
    (e = avr.timestampSec + cs.keyExpiration →
      verifyRegisterEnclaveKey w blockTimeNs cs store msg = .ok () ∧
      registerEnclaveKeyUpdate w cs store msg =
        some (store, [ChainEvent.registeredEnclaveKey avr.enclaveKeyAddress
          (avr.timestampSec + cs.keyExpiration)])) ∧
    (e ≠ avr.timestampSec + cs.keyExpiration →
      verifyRegisterEnclaveKey w blockTimeNs cs store msg = .error ()) := by
  have hsome : (lookupPairs avr.enclaveKeyAddress store.enclaveKeys).isSome = true := by
    unfold getEnclaveKeyExpiredAt at hstored
    simp [hstored]
  constructor
  · intro he
    constructor
    · unfold verifyRegisterEnclaveKey verifyRegisterEnclaveKey.verifyRegisterEnclaveKeyTail
      by_cases hq : avr.isvEnclaveQuoteStatus = QuoteOK
      · simp [hverify, hparse, hq, hok hq, hmr, hstored, he]
      · simp [hverify, hparse, hq, hst hq, hadv hq, hmr, hstored, he]
    · unfold registerEnclaveKeyUpdate
      simp [hparse, hsome]
  · intro he
    unfold verifyRegisterEnclaveKey verifyRegisterEnclaveKey.verifyRegisterEnclaveKeyTail
    by_cases hq : avr.isvEnclaveQuoteStatus = QuoteOK
    · simp [hverify, hparse, hq, hok hq, hmr, hstored, he]
    · simp [hverify, hparse, hq, hst hq, hadv hq, hmr, hstored, he]

/-- Concrete AVR for the C9 witness. -/
def avrW9 : AVR := ⟨"OK", [], 1000, 5, 77, 0⟩

/-- Concrete world for the C9 witness. -/
def wW9 : World :=
  ⟨fun _ => [], fun _ _ _ _ => true,
   fun r => if r = "rep9" then some avrW9 else none,
   fun _ => true, fun _ => none, none, none, none, none, []⟩

/-- Concrete client state for the C9 witness. -/
def csW9 : LCPClientState := ⟨⟨0, 0⟩, 5, 3600, [], [], []⟩

/-- Concrete client store for the C9 witness: key 77 stored with
expiration 4600 = 1000 + 3600. -/
def storeW9 : ClientStore := ⟨[(77, 4600)], none, []⟩

/-- Concrete message for the C9 witness. -/
def msgW9 : RegisterEnclaveKeyMessage := ⟨"rep9", 0, 0, none⟩

/-- Witness for C9: the hypotheses of the duplicate-registration theorem are
satisfiable and its no-op conclusion evaluates on a concrete input. -/
theorem registerEnclaveKey_duplicate_noop_witness :
    verifyRegisterEnclaveKey wW9 0 csW9 storeW9 msgW9 = .ok () ∧
    registerEnclaveKeyUpdate wW9 csW9 storeW9 msgW9 =
      some (storeW9, [ChainEvent.registeredEnclaveKey 77 4600]) :=
  (registerEnclaveKey_duplicate_noop wW9 0 csW9 storeW9 msgW9 avrW9 4600
    (by decide) (by decide) (fun _ => by decide) (fun h => absurd (by decide) h)
    (fun h => absurd (by decide) h) (by decide) (by decide)).1 (by decide)

/-- C8: when operator signing is enabled and the counterparty client state
and configured operator address resolve, registerEnclaveKey fails with no
message submitted to the destination chain (and, since the function
performs no store writes, no state written) unless the operator is a
member of the client state's operator set and any non-zero expected
operator embedded in the AVR report data equals it. -/
theorem registerEnclaveKey_operator_gate (w : World) (cfg : ProverConfig)
    (nowNs : Nat) (eki : EnclaveKeyInfo) (avr : AVR) (cs : LCPClientState) (op : Nat)
    (hop : cfg.operatorEnabled = true)
    (hparse : w.parseAVR eki.report = some avr)
    (hcs : w.counterpartyClientState = some cs)
    (haddr : w.operatorAddress = some op)
    (hbad : cs.operators.contains op = false ∨
      (avr.expectedOperator ≠ 0 ∧ op ≠ avr.expectedOperator)) :
    (registerEnclaveKeyRelay w cfg nowNs eki).ret = .error () ∧
    (registerEnclaveKeyRelay w cfg nowNs eki).submitted = [] := by
  unfold registerEnclaveKeyRelay
  cases hv : w.verifyReport eki.report eki.signature eki.signingCert nowNs
  · simp [hv]
  · rw [hparse, hcs]
    by_cases hmr : cs.mrenclave ≠ avr.mrenclave
    · simp [hv, hmr]
    · rcases hbad with hco | hexp
      · have hco2 : ¬ op ∈ cs.operators := by simpa using hco
        simp [hv, hmr, hop, haddr, hco2]
      · by_cases hc : op ∈ cs.operators
        · simp [hv, hmr, hop, haddr, hc, hexp]
        · simp [hv, hmr, hop, haddr, hc]

/-- Concrete AVR for the C8 witness: a non-zero expected operator 0xAAAA
(modelled as 43690) bound into the report data. -/
def avrW8 : AVR := ⟨"OK", [], 1000, 5, 77, 43690⟩

/-- Concrete counterparty client state for the C8 witness: the configured
operator 48059 is in the operator set but differs from the expected one. -/
def csW8 : LCPClientState := ⟨⟨0, 0⟩, 5, 3600, [], [], [48059]⟩

/-- Concrete world for the C8 witness. -/
def wW8 : World :=
  ⟨fun _ => [], fun _ _ _ _ => true,
   fun r => if r = "rep8" then some avrW8 else none,
   fun _ => true, fun _ => none, none, some csW8, some 48059, some 9, [1]⟩

/-- Concrete config and candidate key for the C8 witness. -/
def cfgW8 : ProverConfig := ⟨5, 3600, [], [], true⟩

/-- Concrete enclave key info for the C8 witness. -/
def ekiW8 : EnclaveKeyInfo := ⟨77, 1000, "rep8", 0, 0⟩

/-- Witness for C8: with operator signing enabled and a configured operator
that differs from the non-zero expected operator of the report data, the
registration fails and nothing is submitted. -/
theorem registerEnclaveKey_operator_gate_witness :
    (registerEnclaveKeyRelay wW8 cfgW8 0 ekiW8).ret = .error () ∧
    (registerEnclaveKeyRelay wW8 cfgW8 0 ekiW8).submitted = [] :=
  registerEnclaveKey_operator_gate wW8 cfgW8 0 ekiW8 avrW8 csW8 48059
    (by decide) (by decide) (by decide) (by decide)
    (Or.inr (by decide))

/-- Concrete objects for C5, using the spec's own seed numbers:
attestation time 1000 s, key expiration 3600 s, so the half-life instant is
second 2800. -/
def cfgX5 : ProverConfig := ⟨5, 3600, [], [], false⟩

/-- Concrete enclave key info for C5. -/
def ekiX5 : EnclaveKeyInfo := ⟨77, 1000, "rep5", 0, 0⟩

/-- Concrete world for C5: the LCP service still knows the key. -/
def wX5 : World :=
  ⟨fun _ => [], fun _ _ _ _ => true, fun _ => none,
   fun _ => true, fun _ => none, none, none, none, none, []⟩

/-- C5 counterexample: at now exactly equal to the half-life instant
(second 2800, i.e. attestation time 1000 plus half of 3600) the rotation
check of checkEKIUpdateNeeded reports NO rotation, because the code uses a
strictly-after comparison; the claim says rotation triggers exactly at the
threshold. -/
theorem checkEKIUpdateNeeded_at_threshold_counterexample :
    updateTimeNs cfgX5 ekiX5 = 2800 * 1000000000 ∧
    checkEKIUpdateNeeded wX5 cfgX5 (2800 * 1000000000) ekiX5 = false := by
  constructor
  · decide
  · decide

/-- C5 amended: for a key the LCP service still knows, the rotation check
reports rotation strictly after the half-life instant and no rotation at
any instant up to and including it; in particular rotation does not trigger
exactly at the threshold, and does not trigger one second before it. -/
theorem checkEKIUpdateNeeded_halfLife_boundary (w : World) (cfg : ProverConfig)
    (nowNs : Nat) (eki : EnclaveKeyInfo) :
    (nowNs > updateTimeNs cfg eki → checkEKIUpdateNeeded w cfg nowNs eki = true) ∧
    (w.enclaveKeyKnown eki.enclaveKeyAddress = true → nowNs ≤ updateTimeNs cfg eki →
      checkEKIUpdateNeeded w cfg nowNs eki = false) := by
  constructor
  · intro h
    simp [checkEKIUpdateNeeded, h]
  · intro hknown h
    have h2 : ¬ nowNs > updateTimeNs cfg eki := by omega
    simp [checkEKIUpdateNeeded, h2, hknown]

/-- Witness for the amended C5: at one second before the threshold (and at
the threshold itself, per the counterexample) the concrete check reports no
rotation, and one nanosecond past the threshold it reports rotation. -/
theorem checkEKIUpdateNeeded_halfLife_boundary_witness :
    checkEKIUpdateNeeded wX5 cfgX5 (2799 * 1000000000) ekiX5 = false ∧
    checkEKIUpdateNeeded wX5 cfgX5 (2800 * 1000000000 + 1) ekiX5 = true :=
  ⟨(checkEKIUpdateNeeded_halfLife_boundary wX5 cfgX5 (2799 * 1000000000) ekiX5).2
      (by decide) (by decide),
   (checkEKIUpdateNeeded_halfLife_boundary wX5 cfgX5 (2800 * 1000000000 + 1) ekiX5).1
      (by decide)⟩

/-- Concrete config for C4: status SW_HARDENING_NEEDED allowed, no advisory
ID allowed. -/
def cfgX4 : ProverConfig := ⟨5, 3600, ["SW_HARDENING_NEEDED"], [], false⟩

/-- Concrete AVR for C4: an advisory ID outside the allowed (empty) set, so
the Policy Engine would now reject the key. -/
def avrX4 : AVR := ⟨"SW_HARDENING_NEEDED", ["INTEL-SA-00334"], 1000, 5, 77, 0⟩

/-- Concrete enclave key info for C4. -/
def ekiX4 : EnclaveKeyInfo := ⟨77, 1000, "rep4", 0, 0⟩

/-- Concrete world for C4: the key is still known to the LCP service. -/
def wX4 : World :=
  ⟨fun _ => [], fun _ _ _ _ => true,
   fun r => if r = "rep4" then some avrX4 else none,
   fun _ => true, fun _ => none, none, none, none, none, []⟩

/-- C4 counterexample: for a finalized active key that the LCP service still
knows and that is not past its half-life, but whose advisory IDs the Policy
Engine would now reject, the update-needed predicate of EnsureActiveKey
returns false while the spec's predicate (which includes the policy
re-check) is true, refuting the claimed equivalence. -/
theorem loadEKI_finalized_no_policy_recheck_counterexample :
    (loadEKIAndCheckUpdateNeeded wX4 cfgX4 (1100 * 1000000000)
      ⟨some ekiX4, none⟩ ⟨none, none⟩).ret = .ok false ∧
    checkEKIUpdateNeededSpec wX4 cfgX4 (1100 * 1000000000) ekiX4 = true := by
  constructor
  · rfl
  · decide

/-- C4 amended: for a finalized active key, the update-needed predicate of
EnsureActiveKey returns true if and only if now is strictly past the
half-life instant or the LCP service no longer knows the key; no policy
re-check (MRENCLAVE, quote status, advisory IDs) is performed. -/
theorem loadEKI_finalized_update_iff (w : World) (cfg : ProverConfig)
    (nowNs : Nat) (st : PState) (store : Store) (eki : EnclaveKeyInfo)
    (hact : st.activeEnclaveKey = some eki)
    (hunf : st.unfinalizedMsgID = none) :
    ((loadEKIAndCheckUpdateNeeded w cfg nowNs st store).ret = .ok true ↔
      (nowNs > updateTimeNs cfg eki ∨
        w.enclaveKeyKnown eki.enclaveKeyAddress = false)) := by
  obtain ⟨a, u⟩ := st
  simp only at hact hunf
  subst hact
  subst hunf
  unfold loadEKIAndCheckUpdateNeeded caseBFinalized checkEKIUpdateNeeded
  by_cases h1 : nowNs > updateTimeNs cfg eki
  · simp [h1]
  · cases h2 : w.enclaveKeyKnown eki.enclaveKeyAddress
    · simp [h1, h2]
    · simp [h1, h2]

/-- Concrete world for the amended C4 witness: the LCP service no longer
knows the key. -/
def wW4 : World :=
  ⟨fun _ => [], fun _ _ _ _ => true, fun _ => none,
   fun _ => false, fun _ => none, none, none, none, none, []⟩

/-- Witness for the amended C4: with the key unknown to the LCP service the
update-needed predicate returns true on a concrete finalized state. -/
theorem loadEKI_finalized_update_iff_witness :
    (loadEKIAndCheckUpdateNeeded wW4 cfgX4 (1100 * 1000000000)
      ⟨some ekiX4, none⟩ ⟨none, none⟩).ret = .ok true :=
  (loadEKI_finalized_update_iff wW4 cfgX4 (1100 * 1000000000)
    ⟨some ekiX4, none⟩ ⟨none, none⟩ ekiX4 rfl rfl).2 (Or.inr rfl)

/-- C2 amended: in Case C of EnsureActiveKey, when the in-flight message is
found, succeeded, and its block height is at most the latest finalized
height, the code first applies the Case B staleness predicate: if rotation
is due it returns update-needed immediately WITHOUT promoting (the
finalized record is not saved, the unfinalized record is not removed and
the message ID stays set); only when no rotation is due does it promote
(save the finalized record, remove the unfinalized record, clear the
message ID) and report no update needed. -/
theorem caseC_finalized_check_then_promote (w : World) (cfg : ProverConfig)
    (nowNs : Nat) (st : PState) (store : Store) (eki : EnclaveKeyInfo)
    (m : Nat) (r : MsgResult) (lf : Height)
    (hact : st.activeEnclaveKey = some eki)
    (hunf : st.unfinalizedMsgID = some m)
    (hlf : w.getLatestFinalizedHeader = some lf)
    (hres : w.getMsgResult m = some r)
    (hok : r.okStatus = true)
    (hfin : Height.lte r.blockHeight lf = true) :
    (checkEKIUpdateNeeded w cfg nowNs eki = true →
      (loadEKIAndCheckUpdateNeeded w cfg nowNs st store).ret = .ok true ∧
      (loadEKIAndCheckUpdateNeeded w cfg nowNs st store).store = store ∧
      (loadEKIAndCheckUpdateNeeded w cfg nowNs st store).st.unfinalizedMsgID = some m) ∧
    (checkEKIUpdateNeeded w cfg nowNs eki = false →
      (loadEKIAndCheckUpdateNeeded w cfg nowNs st store).ret = .ok false ∧
      (loadEKIAndCheckUpdateNeeded w cfg nowNs st store).store = ⟨some eki, none⟩ ∧
      (loadEKIAndCheckUpdateNeeded w cfg nowNs st store).st = ⟨some eki, none⟩) := by
  obtain ⟨a, u⟩ := st
  simp only at hact hunf
  subst hact
  subst hunf
  have hstat : checkMsgStatus w m = some (true, true) := by
    unfold checkMsgStatus
    rw [hlf, hres]
    simp [hok, hfin]
  have hld : loadEKIAndCheckUpdateNeeded w cfg nowNs ⟨some eki, some m⟩ store
      = caseCUnfinalized w cfg nowNs eki m store [⟨some eki, some m⟩] := rfl
  constructor
  · intro hupd
    rw [hld]
    simp only [caseCUnfinalized]
    rw [hres]
    simp [hstat, hupd]
  · intro hupd
    rw [hld]
    simp only [caseCUnfinalized]
    rw [hres]
    simp [hstat, hupd]

/-- Concrete config for C2. -/
def cfgX2 : ProverConfig := ⟨5, 3600, [], [], false⟩

/-- Concrete enclave key info for C2, attested at second 1000, so already
past its half-life at second 5000. -/
def ekiX2 : EnclaveKeyInfo := ⟨77, 1000, "rep2", 0, 0⟩

/-- Concrete world for C2: message 3 executed successfully at height 50,
latest finalized height 60, so the registration is finalized. -/
def wX2 : World :=
  ⟨fun _ => [], fun _ _ _ _ => true, fun _ => none, fun _ => true,
   fun i => if i = 3 then some ⟨true, ⟨0, 50⟩⟩ else none,
   some ⟨0, 60⟩, none, none, none, []⟩

/-- C2 counterexample: the in-flight message is found, succeeded and
finalized, and rotation is due (now is past the half-life); the tick
reports update needed but does NOT promote: the finalized record is not
saved, the unfinalized record remains on disk and the message ID remains
set, contradicting the claimed promote-then-rotate behaviour. -/
theorem caseC_promote_short_circuit_counterexample :
    (loadEKIAndCheckUpdateNeeded wX2 cfgX2 (5000 * 1000000000)
      ⟨some ekiX2, some 3⟩ ⟨none, some (ekiX2, 3)⟩).ret = .ok true ∧
    (loadEKIAndCheckUpdateNeeded wX2 cfgX2 (5000 * 1000000000)
      ⟨some ekiX2, some 3⟩ ⟨none, some (ekiX2, 3)⟩).store.finalized = none ∧
    (loadEKIAndCheckUpdateNeeded wX2 cfgX2 (5000 * 1000000000)
      ⟨some ekiX2, some 3⟩ ⟨none, some (ekiX2, 3)⟩).store.unfinalized = some (ekiX2, 3) ∧
    (loadEKIAndCheckUpdateNeeded wX2 cfgX2 (5000 * 1000000000)
      ⟨some ekiX2, some 3⟩ ⟨none, some (ekiX2, 3)⟩).st.unfinalizedMsgID = some 3 :=
  ⟨rfl, rfl, rfl, rfl⟩

/-- Concrete world for the amended C2 witness: same chain responses as the
counterexample but the key is fresh, so no rotation is due and the promote
path runs. -/
def wW2 : World :=
  ⟨fun _ => [], fun _ _ _ _ => true, fun _ => none, fun _ => true,
   fun i => if i = 3 then some ⟨true, ⟨0, 50⟩⟩ else none,
   some ⟨0, 60⟩, none, none, none, []⟩

/-- Witness for the amended C2: on a concrete fresh key the promote path
saves the finalized record, clears the unfinalized record and the message
ID, and reports no update needed. -/
theorem caseC_finalized_check_then_promote_witness :
    (loadEKIAndCheckUpdateNeeded wW2 cfgX2 (1100 * 1000000000)
      ⟨some ekiX2, some 3⟩ ⟨none, some (ekiX2, 3)⟩).ret = .ok false ∧
    (loadEKIAndCheckUpdateNeeded wW2 cfgX2 (1100 * 1000000000)
      ⟨some ekiX2, some 3⟩ ⟨none, some (ekiX2, 3)⟩).store = ⟨some ekiX2, none⟩ ∧
    (loadEKIAndCheckUpdateNeeded wW2 cfgX2 (1100 * 1000000000)
      ⟨some ekiX2, some 3⟩ ⟨none, some (ekiX2, 3)⟩).st = ⟨some ekiX2, none⟩ :=
  (caseC_finalized_check_then_promote wW2 cfgX2 (1100 * 1000000000)
    ⟨some ekiX2, some 3⟩ ⟨none, some (ekiX2, 3)⟩ ekiX2 3 ⟨true, ⟨0, 50⟩⟩ ⟨0, 60⟩
    rfl rfl rfl rfl rfl (by decide)).2 (by decide)

theorem selectLoop_ok_validates (w : World) (cfg : ProverConfig) (nowNs : Nat) :
    ∀ (keys : List EnclaveKeyInfo) (eki : EnclaveKeyInfo),
      selectLoop w cfg nowNs keys = .ok eki →
      checkEKIUpdateNeeded w cfg nowNs eki = false ∧
      ∀ avr, w.parseAVR eki.report = some avr →
        validateISVEnclaveQuoteStatus cfg avr.isvEnclaveQuoteStatus = true ∧
        validateAdvisoryIDs cfg avr.advisoryIDs = true := by
  intro keys
  induction keys with
  | nil =>
    intro eki h
    simp [selectLoop] at h
  | cons k rest ih =>
    intro eki h
    simp only [selectLoop] at h
    split at h
    · exact absurd h (by simp)
    · split at h
      · exact absurd h (by simp)
      · next avr hp =>
        split at h
        · exact ih eki h
        · split at h
          · exact ih eki h
          · split at h
            · exact ih eki h
            · next h1 h2 h3 =>
              have hk : k = eki := by
                simpa using h
              subst hk
              refine ⟨by simpa using h1, ?_⟩
              intro avr2 hp2
              rw [hp] at hp2
              injection hp2 with he
              subst he
              exact ⟨by simpa using h2, by simpa using h3⟩

/-- Concrete config for C1: the single advisory ID is in the allowed set. -/
def cfgX1 : ProverConfig := ⟨5, 3600, [], ["INTEL-SA-00334"], false⟩

/-- Concrete AVR for C1: quote status OK together with a non-empty advisory
list whose only ID is allowed by the configuration. -/
def avrX1 : AVR := ⟨"OK", ["INTEL-SA-00334"], 1000, 5, 77, 0⟩

/-- Concrete enclave key info for C1. -/
def ekiX1 : EnclaveKeyInfo := ⟨77, 1000, "rep1", 0, 0⟩

/-- Concrete world for C1. -/
def wX1 : World :=
  ⟨fun _ => [ekiX1], fun _ _ _ _ => true,
   fun r => if r = "rep1" then some avrX1 else none,
   fun _ => true, fun _ => none, none, none, none, none, []⟩

/-- C1 counterexample: selectNewEnclaveKey returns a key whose AVR has ISV
quote status OK and a non-empty advisory-ID list (all of whose IDs are in
the allowed set), refuting the claim that such a key is always rejected. -/
theorem selectNewEnclaveKey_ok_with_advisories_counterexample :
    selectNewEnclaveKey wX1 cfgX1 (1100 * 1000000000) = .ok ekiX1 ∧
    wX1.parseAVR ekiX1.report = some avrX1 ∧
    avrX1.isvEnclaveQuoteStatus = QuoteOK ∧
    avrX1.advisoryIDs ≠ [] :=
  ⟨rfl, rfl, rfl, by decide⟩

/-- C1 amended: every candidate key returned by selectNewEnclaveKey passes
the quote-status validator and the advisory-ID validator, so a key whose
AVR carries an advisory ID outside allowed_advisory_ids is always rejected;
but when the quote status is OK a non-empty advisory list is not by itself
a reason for rejection: the key is rejected only when some advisory ID is
outside allowed_advisory_ids. -/
theorem selectNewEnclaveKey_validators_hold (w : World) (cfg : ProverConfig)
    (nowNs : Nat) (eki : EnclaveKeyInfo) (avr : AVR)
    (hsel : selectNewEnclaveKey w cfg nowNs = .ok eki)
    (hp : w.parseAVR eki.report = some avr) :
    validateISVEnclaveQuoteStatus cfg avr.isvEnclaveQuoteStatus = true ∧
    validateAdvisoryIDs cfg avr.advisoryIDs = true := by
  simp only [selectNewEnclaveKey] at hsel
  split at hsel
  · exact absurd hsel (by simp)
  · exact (selectLoop_ok_validates w cfg nowNs _ eki hsel).2 avr hp

/-- Witness for the amended C1: the selected key of the concrete world
passes both validators. -/
theorem selectNewEnclaveKey_validators_hold_witness :
    validateISVEnclaveQuoteStatus cfgX1 avrX1.isvEnclaveQuoteStatus = true ∧
    validateAdvisoryIDs cfgX1 avrX1.advisoryIDs = true :=
  selectNewEnclaveKey_validators_hold wX1 cfgX1 (1100 * 1000000000) ekiX1 avrX1 rfl rfl

/-- A candidate whose IAS report verification and AVR parse both succeed
(so the selection loop does not abort on it). -/
def candidateChecked (w : World) (nowNs : Nat) (k : EnclaveKeyInfo) : Prop :=
  w.verifyReport k.report k.signature k.signingCert nowNs = true ∧
  ∃ avr, w.parseAVR k.report = some avr

/-- A candidate that fails one of the three policy checks of the selection
loop: the expiration-and-availability check, the quote-status validator, or
the advisory-ID validator. -/
def candidatePolicyFails (w : World) (cfg : ProverConfig) (nowNs : Nat)
    (k : EnclaveKeyInfo) : Prop :=
  checkEKIUpdateNeeded w cfg nowNs k = true ∨
  ∃ avr, w.parseAVR k.report = some avr ∧
    (validateISVEnclaveQuoteStatus cfg avr.isvEnclaveQuoteStatus = false ∨
     validateAdvisoryIDs cfg avr.advisoryIDs = false)

/-- A candidate that passes the report checks and all three policy checks. -/
def candidatePasses (w : World) (cfg : ProverConfig) (nowNs : Nat)
    (k : EnclaveKeyInfo) : Prop :=
  w.verifyReport k.report k.signature k.signingCert nowNs = true ∧
  checkEKIUpdateNeeded w cfg nowNs k = false ∧
  ∃ avr, w.parseAVR k.report = some avr ∧
    validateISVEnclaveQuoteStatus cfg avr.isvEnclaveQuoteStatus = true ∧
    validateAdvisoryIDs cfg avr.advisoryIDs = true

theorem selectLoop_skips_policy_failures (w : World) (cfg : ProverConfig)
    (nowNs : Nat) :
    ∀ (pre : List EnclaveKeyInfo) (k : EnclaveKeyInfo) (rest : List EnclaveKeyInfo),
      (∀ k2 ∈ pre, candidateChecked w nowNs k2 ∧ candidatePolicyFails w cfg nowNs k2) →
      candidatePasses w cfg nowNs k →
      selectLoop w cfg nowNs (pre ++ k :: rest) = .ok k := by
  intro pre
  induction pre with
  | nil =>
    intro k rest _ hk
    obtain ⟨hv, hc, avr, hp, hs, ha⟩ := hk
    simp only [List.nil_append, selectLoop, hv, hp]
    simp [hc, hs, ha]
  | cons p pre2 ih =>
    intro k rest hpre hk
    have hp0 := hpre p (by simp)
    obtain ⟨⟨hv0, avr0, hparse0⟩, hfail⟩ := hp0
    have htail : selectLoop w cfg nowNs (pre2 ++ k :: rest) = .ok k :=
      ih k rest (fun k2 hk2 => hpre k2 (by simp [hk2])) hk
    simp only [List.cons_append, selectLoop, hv0, hparse0]
    rcases hfail with hc0 | ⟨avr1, hparse1, hbad⟩
    · simp [hc0, htail]
    · rw [hparse0] at hparse1
      injection hparse1 with he
      subst he
      rcases hbad with hb | hb
      · by_cases hc0 : checkEKIUpdateNeeded w cfg nowNs p = true
        · simp [hc0, htail]
        · simp [hc0, hb, htail]
      · by_cases hc0 : checkEKIUpdateNeeded w cfg nowNs p = true
        · simp [hc0, htail]
        · by_cases hs0 : validateISVEnclaveQuoteStatus cfg avr0.isvEnclaveQuoteStatus = false
          · simp [hc0, hs0, htail]
          · simp [hc0, hs0, hb, htail]

theorem selectLoop_exhausts_to_error (w : World) (cfg : ProverConfig)
    (nowNs : Nat) :
    ∀ keys : List EnclaveKeyInfo,
      (∀ k2 ∈ keys, candidateChecked w nowNs k2 ∧ candidatePolicyFails w cfg nowNs k2) →
      selectLoop w cfg nowNs keys = .error .allNotAllowed := by
  intro keys
  induction keys with
  | nil => intro _; simp [selectLoop]
  | cons p pre2 ih =>
    intro hpre
    have hp0 := hpre p (by simp)
    obtain ⟨⟨hv0, avr0, hparse0⟩, hfail⟩ := hp0
    have htail : selectLoop w cfg nowNs pre2 = .error .allNotAllowed :=
      ih (fun k2 hk2 => hpre k2 (by simp [hk2]))
    simp only [selectLoop, hv0, hparse0]
    rcases hfail with hc0 | ⟨avr1, hparse1, hbad⟩
    · simp [hc0, htail]
    · rw [hparse0] at hparse1
      injection hparse1 with he
      subst he
      rcases hbad with hb | hb
      · by_cases hc0 : checkEKIUpdateNeeded w cfg nowNs p = true
        · simp [hc0, htail]
        · simp [hc0, hb, htail]
      · by_cases hc0 : checkEKIUpdateNeeded w cfg nowNs p = true
        · simp [hc0, htail]
        · by_cases hs0 : validateISVEnclaveQuoteStatus cfg avr0.isvEnclaveQuoteStatus = false
          · simp [hc0, hs0, htail]
          · simp [hc0, hs0, hb, htail]

theorem registerEnclaveKeyRelay_submitted_le_one (w : World) (cfg : ProverConfig)
    (nowNs : Nat) (eki : EnclaveKeyInfo) :
    (registerEnclaveKeyRelay w cfg nowNs eki).submitted.length ≤ 1 := by
  unfold registerEnclaveKeyRelay submitRegister
  repeat' split
  all_goals simp

theorem tick_submits_at_most_one (w : World) (cfg : ProverConfig) (nowNs : Nat)
    (st : PState) (store : Store) :
    (UpdateEKIfNeeded w cfg nowNs st store).submitted.length ≤ 1 := by
  simp only [UpdateEKIfNeeded]
  repeat' split
  all_goals simp [registerEnclaveKeyRelay_submitted_le_one]

/-- C3 amended: during candidate selection every candidate that fails a
POLICY check (expiration or availability, quote status, advisory IDs) is
skipped and the next candidate is considered, the first candidate that
passes (in service-returned order) is selected, exhausting all candidates
produces the no-usable-key error, and a tick submits at most one on-chain
message (none for skipped candidates); however a candidate whose AVR fails
IAS verification or parsing is NOT skipped: it aborts the whole selection
with an error (see the counterexample). -/
theorem selection_skip_first_pass_exhaust (w : World) (cfg : ProverConfig)
    (nowNs : Nat) :
    (∀ (pre : List EnclaveKeyInfo) (k : EnclaveKeyInfo) (rest : List EnclaveKeyInfo),
      (∀ k2 ∈ pre, candidateChecked w nowNs k2 ∧ candidatePolicyFails w cfg nowNs k2) →
      candidatePasses w cfg nowNs k →
      selectLoop w cfg nowNs (pre ++ k :: rest) = .ok k) ∧
    (∀ keys : List EnclaveKeyInfo,
      (∀ k2 ∈ keys, candidateChecked w nowNs k2 ∧ candidatePolicyFails w cfg nowNs k2) →
      selectLoop w cfg nowNs keys = .error .allNotAllowed) ∧
    (∀ (st : PState) (store : Store),
      (UpdateEKIfNeeded w cfg nowNs st store).submitted.length ≤ 1) :=
  ⟨selectLoop_skips_policy_failures w cfg nowNs,
   selectLoop_exhausts_to_error w cfg nowNs,
   fun st store => tick_submits_at_most_one w cfg nowNs st store⟩

/-- Concrete config for C3. -/
def cfgX3 : ProverConfig := ⟨5, 3600, ["SW_HARDENING_NEEDED"], [], false⟩

/-- First candidate for C3: its IAS report verification fails. -/
def ekiX3a : EnclaveKeyInfo := ⟨71, 1000, "rep3a", 0, 0⟩

/-- Second candidate for C3: passes everything. -/
def ekiX3b : EnclaveKeyInfo := ⟨72, 1000, "rep3b", 0, 0⟩

/-- AVR of the second C3 candidate. -/
def avrX3b : AVR := ⟨"OK", [], 1000, 5, 72, 0⟩

/-- Concrete world for the C3 counterexample: report verification fails for
the first candidate only. -/
def wX3 : World :=
  ⟨fun _ => [ekiX3a, ekiX3b],
   fun r _ _ _ => if r = "rep3a" then false else true,
   fun r => if r = "rep3b" then some avrX3b else none,
   fun _ => true, fun _ => none, none, none, none, none, []⟩

/-- C3 counterexample: with a first candidate that fails AVR validation and
a second that passes, selectNewEnclaveKey does not skip to the second
candidate but aborts the whole selection with a verification error, even
though the second candidate alone would be selected. -/
theorem selection_aborts_on_verify_failure_counterexample :
    selectNewEnclaveKey wX3 cfgX3 (1100 * 1000000000) = .error .verifyFailed ∧
    selectLoop wX3 cfgX3 (1100 * 1000000000) [ekiX3b] = .ok ekiX3b :=
  ⟨rfl, rfl⟩

/-- AVR of the policy-failing first candidate of the C3 witness: its quote
status is not in the allowed list. -/
def avrW3a : AVR := ⟨"GROUP_OUT_OF_DATE", [], 1000, 5, 71, 0⟩

/-- Concrete world for the C3 witness: both candidates verify and parse,
the first fails the quote-status policy check, the second passes. -/
def wW3 : World :=
  ⟨fun _ => [], fun _ _ _ _ => true,
   fun r => if r = "rep3a" then some avrW3a
            else if r = "rep3b" then some avrX3b else none,
   fun _ => true, fun _ => none, none, none, none, none, []⟩

/-- Witness for the amended C3: a concrete policy-rejected candidate is
skipped and the next candidate is selected. -/
theorem selection_skip_first_pass_exhaust_witness :
    selectLoop wW3 cfgX3 (1100 * 1000000000) ([ekiX3a] ++ ekiX3b :: []) = .ok ekiX3b :=
  (selection_skip_first_pass_exhaust wW3 cfgX3 (1100 * 1000000000)).1 [ekiX3a] ekiX3b []
    (by
      intro k2 hk2
      simp only [List.mem_singleton] at hk2
      subst hk2
      exact ⟨⟨rfl, ⟨avrW3a, rfl⟩⟩, Or.inr ⟨avrW3a, rfl, Or.inl rfl⟩⟩)
    ⟨rfl, rfl, ⟨avrX3b, rfl, rfl, rfl⟩⟩

theorem invPS_caseB_trace (w : World) (cfg : ProverConfig) (nowNs : Nat)
    (eki : EnclaveKeyInfo) (store : Store) (tr : List PState)
    (h : ∀ s ∈ tr, invPS s = true) :
    ∀ s ∈ (caseBFinalized w cfg nowNs eki store tr).trace, invPS s = true := by
  intro s hs
  simp only [caseBFinalized, List.mem_append, List.mem_singleton] at hs
  rcases hs with hs | rfl
  · exact h s hs
  · rfl

theorem invPS_caseC_trace (w : World) (cfg : ProverConfig) (nowNs : Nat)
    (eki : EnclaveKeyInfo) (msgID : Nat) (store : Store) (tr : List PState)
    (h : ∀ s ∈ tr, invPS s = true) :
    ∀ s ∈ (caseCUnfinalized w cfg nowNs eki msgID store tr).trace, invPS s = true := by
  intro s hs
  simp only [caseCUnfinalized] at hs
  rcases hm : w.getMsgResult msgID with _ | r <;> rw [hm] at hs
  · simp only [List.mem_append, List.mem_cons, List.mem_singleton,
      List.not_mem_nil, or_false] at hs
    rcases hs with hs | rfl | rfl
    · exact h s hs
    · rfl
    · rfl
  · rcases hc : checkMsgStatus w msgID with _ | p <;> rw [hc] at hs
    · simp only [List.mem_append, List.mem_singleton] at hs
      rcases hs with hs | rfl
      · exact h s hs
      · rfl
    · obtain ⟨fin, succ⟩ := p
      cases succ
      · simp only [reduceIte] at hs
        simp only [List.mem_append, List.mem_cons, List.mem_singleton,
          List.not_mem_nil, or_false] at hs
        rcases hs with hs | rfl | rfl
        · exact h s hs
        · rfl
        · rfl
      · cases fin
        · simp only [Bool.true_eq_false, Bool.false_eq_true, reduceIte] at hs
          simp only [List.mem_append, List.mem_singleton] at hs
          rcases hs with hs | rfl
          · exact h s hs
          · rfl
        · simp only [Bool.true_eq_false, reduceIte] at hs
          cases hu : checkEKIUpdateNeeded w cfg nowNs eki <;> rw [hu] at hs
          · simp only [Bool.false_eq_true, reduceIte] at hs
            simp only [List.mem_append, List.mem_cons, List.mem_singleton,
              List.not_mem_nil, or_false] at hs
            rcases hs with hs | rfl | rfl | rfl
            · exact h s hs
            · rfl
            · rfl
            · rfl
          · simp only [reduceIte] at hs
            simp only [List.mem_append, List.mem_singleton] at hs
            rcases hs with hs | rfl
            · exact h s hs
            · rfl

theorem invPS_loadEKI_trace (w : World) (cfg : ProverConfig) (nowNs : Nat)
    (st : PState) (store : Store) (h : invPS st = true) :
    ∀ s ∈ (loadEKIAndCheckUpdateNeeded w cfg nowNs st store).trace, invPS s = true := by
  have hbase : ∀ s ∈ [st], invPS s = true := by
    intro s hs
    simp only [List.mem_singleton] at hs
    subst hs
    exact h
  unfold loadEKIAndCheckUpdateNeeded
  rcases ha : st.activeEnclaveKey with _ | eki
  · rcases hu : store.unfinalized with _ | p
    · rcases hf : store.finalized with _ | eki2
      · exact hbase
      · exact invPS_caseB_trace w cfg nowNs eki2 store ([st] ++ [⟨some eki2, none⟩])
          (by
            intro s hs
            simp only [List.cons_append, List.nil_append, List.mem_cons,
              List.not_mem_nil, or_false] at hs
            rcases hs with rfl | rfl
            · exact h
            · rfl)
    · obtain ⟨eki2, msgID⟩ := p
      exact invPS_caseC_trace w cfg nowNs eki2 msgID store
        ([st] ++ [⟨some eki2, some msgID⟩])
        (by
          intro s hs
          simp only [List.cons_append, List.nil_append, List.mem_cons,
            List.not_mem_nil, or_false] at hs
          rcases hs with rfl | rfl
          · exact h
          · rfl)
  · rcases hm : st.unfinalizedMsgID with _ | msgID
    · exact invPS_caseB_trace w cfg nowNs eki store [st] hbase
    · exact invPS_caseC_trace w cfg nowNs eki msgID store [st] hbase

/-- C7: the P1 invariant holds at every observation point of an
UpdateEKIfNeeded tick: every in-memory state snapshot in the trace of the
tick (covering loadEKIAndCheckUpdateNeeded and its helpers, the clearing
before selection, and the final assignment after persisting) has an active
enclave key whenever an unfinalized message ID is set, provided the initial
state satisfies the invariant. -/
theorem tick_trace_preserves_P1 (w : World) (cfg : ProverConfig) (nowNs : Nat)
    (st : PState) (store : Store) (h : invPS st = true) :
    ∀ s ∈ (UpdateEKIfNeeded w cfg nowNs st store).trace, invPS s = true := by
  have hload := invPS_loadEKI_trace w cfg nowNs st store h
  have hload2 : ∀ s ∈ (loadEKIAndCheckUpdateNeeded w cfg nowNs st store).trace
      ++ [(⟨none, none⟩ : PState)], invPS s = true := by
    intro s hs
    simp only [List.mem_append, List.mem_singleton] at hs
    rcases hs with hs | rfl
    · exact hload s hs
    · rfl
  simp only [UpdateEKIfNeeded]
  split
  · exact hload
  · exact hload
  · split
    · exact hload2
    · split
      · exact hload2
      · split
        · exact hload2
        · split
          · exact hload2
          · split
            · intro s hs
              simp only [List.mem_append, List.mem_singleton] at hs
              rcases hs with (hs | rfl) | rfl
              · exact hload s hs
              · rfl
              · rfl
            · intro s hs
              simp only [List.mem_append, List.mem_singleton] at hs
              rcases hs with (hs | rfl) | rfl
              · exact hload s hs
              · rfl
              · rfl

/-- Concrete key and world for the C7 witness. -/
def ekiW7 : EnclaveKeyInfo := ⟨77, 1000, "rep7", 0, 0⟩

/-- Concrete world for the C7 witness: the in-flight message is not found
and no candidate keys are available. -/
def wW7 : World :=
  ⟨fun _ => [], fun _ _ _ _ => true, fun _ => none, fun _ => true,
   fun _ => none, none, none, none, none, []⟩

/-- Concrete config for the C7 witness. -/
def cfgW7 : ProverConfig := ⟨5, 3600, [], [], false⟩

/-- Witness for C7: on a concrete tick the invariant hypothesis holds and
the cleared state observed in the trace satisfies the invariant. -/
theorem tick_trace_preserves_P1_witness :
    invPS ⟨some ekiW7, some 3⟩ = true ∧ invPS (⟨none, none⟩ : PState) = true :=
  ⟨by decide,
   tick_trace_preserves_P1 wW7 cfgW7 0 ⟨some ekiW7, some 3⟩
     ⟨none, some (ekiW7, 3)⟩ (by decide) ⟨none, none⟩ (by decide)⟩

theorem registerEnclaveKeyRelay_no_submit_error (w : World) (cfg : ProverConfig)
    (nowNs : Nat) (eki : EnclaveKeyInfo) :
    (registerEnclaveKeyRelay w cfg nowNs eki).submitted = [] →
    (registerEnclaveKeyRelay w cfg nowNs eki).ret = .error () := by
  unfold registerEnclaveKeyRelay submitRegister
  repeat' split
  all_goals simp

/-- C6: when the destination chain reports the in-flight registration
message as not found (the query errors) or as executed-but-failed, the tick
removes the persisted unfinalized record, clears the in-memory state to
(none, none) (observed in the trace), and proceeds to select and register a
new candidate: assuming selection and registration succeed with deferred
finality, the tick ends with the new key and its fresh message ID in memory
and on disk, and a registration message was submitted. -/
theorem tick_recovers_from_lost_registration (w : World) (cfg : ProverConfig)
    (nowNs : Nat) (st : PState) (store : Store) (eki : EnclaveKeyInfo) (m : Nat)
    (eki2 : EnclaveKeyInfo) (m2 : Nat)
    (hact : st.activeEnclaveKey = some eki)
    (hunf : st.unfinalizedMsgID = some m)
    (hlost : w.getMsgResult m = none ∨
      (∃ r, w.getMsgResult m = some r ∧ r.okStatus = false ∧
        ∃ lf, w.getLatestFinalizedHeader = some lf))
    (hsel : selectNewEnclaveKey w cfg nowNs = .ok eki2)
    (hreg : (registerEnclaveKeyRelay w cfg nowNs eki2).ret = .ok m2)
    (hstat : checkMsgStatus w m2 = some (false, true)) :
    (loadEKIAndCheckUpdateNeeded w cfg nowNs st store).ret = .ok true ∧
    (loadEKIAndCheckUpdateNeeded w cfg nowNs st store).store.unfinalized = none ∧
    (⟨none, none⟩ : PState) ∈ (UpdateEKIfNeeded w cfg nowNs st store).trace ∧
    (UpdateEKIfNeeded w cfg nowNs st store).st = ⟨some eki2, some m2⟩ ∧
    (UpdateEKIfNeeded w cfg nowNs st store).store.unfinalized = some (eki2, m2) ∧
    (UpdateEKIfNeeded w cfg nowNs st store).submitted ≠ [] := by
  obtain ⟨a, u⟩ := st
  simp only at hact hunf
  subst hact
  subst hunf
  have hld : loadEKIAndCheckUpdateNeeded w cfg nowNs ⟨some eki, some m⟩ store
      = ⟨.ok true, ⟨some eki, some m⟩, ⟨store.finalized, none⟩,
         [⟨some eki, some m⟩, ⟨some eki, some m⟩, ⟨some eki, some m⟩]⟩ := by
    have hrfl : loadEKIAndCheckUpdateNeeded w cfg nowNs ⟨some eki, some m⟩ store
        = caseCUnfinalized w cfg nowNs eki m store [⟨some eki, some m⟩] := rfl
    rw [hrfl]
    rcases hlost with hm | ⟨r, hm, hr0, lf, hlf⟩
    · simp only [caseCUnfinalized]
      rw [hm]
      rfl
    · have hcs : checkMsgStatus w m = some (false, false) := by
        unfold checkMsgStatus
        rw [hlf, hm]
        simp [hr0]
      simp only [caseCUnfinalized]
      rw [hm, hcs]
      simp
  refine ⟨by rw [hld], by rw [hld], ?_, ?_, ?_, ?_⟩
  · simp only [UpdateEKIfNeeded, hld, hsel, hreg, hstat, Bool.true_eq_false,
      Bool.false_eq_true, reduceIte]
    simp
  · simp only [UpdateEKIfNeeded, hld, hsel, hreg, hstat, Bool.true_eq_false,
      Bool.false_eq_true, reduceIte]
  · simp only [UpdateEKIfNeeded, hld, hsel, hreg, hstat, Bool.true_eq_false,
      Bool.false_eq_true, reduceIte]
  · simp only [UpdateEKIfNeeded, hld, hsel, hreg, hstat, Bool.true_eq_false,
      Bool.false_eq_true, reduceIte]
    intro hemp
    have hret := registerEnclaveKeyRelay_no_submit_error w cfg nowNs eki2 hemp
    rw [hreg] at hret
    exact absurd hret (by simp)

/-- Old unfinalized key for the C6 witness. -/
def ekiW6 : EnclaveKeyInfo := ⟨76, 1000, "rep6", 0, 0⟩

/-- Fresh candidate key for the C6 witness. -/
def ekiW6b : EnclaveKeyInfo := ⟨78, 1000, "rep6b", 0, 0⟩

/-- AVR of the fresh C6 candidate. -/
def avrW6b : AVR := ⟨"OK", [], 1000, 5, 78, 0⟩

/-- Counterparty client state for the C6 witness. -/
def csW6 : LCPClientState := ⟨⟨0, 0⟩, 5, 3600, [], [], []⟩

/-- Config for the C6 witness. -/
def cfgW6 : ProverConfig := ⟨5, 3600, [], [], false⟩

/-- World for the C6 witness: the old message 3 is not found (reorged out);
the fresh registration returns message 9, included at height 70 which is
past the latest finalized height 60, so it stays unfinalized. -/
def wW6 : World :=
  ⟨fun _ => [ekiW6b], fun _ _ _ _ => true,
   fun r => if r = "rep6b" then some avrW6b else none,
   fun _ => true,
   fun i => if i = 9 then some ⟨true, ⟨0, 70⟩⟩ else none,
   some ⟨0, 60⟩, some csW6, none, none, [9]⟩

/-- Witness for C6: on the concrete reorged-out world the tick ends with the
fresh key and its new message ID in memory and on disk. -/
theorem tick_recovers_from_lost_registration_witness :
    (UpdateEKIfNeeded wW6 cfgW6 (1100 * 1000000000) ⟨some ekiW6, some 3⟩
      ⟨none, some (ekiW6, 3)⟩).st = ⟨some ekiW6b, some 9⟩ ∧
    (UpdateEKIfNeeded wW6 cfgW6 (1100 * 1000000000) ⟨some ekiW6, some 3⟩
      ⟨none, some (ekiW6, 3)⟩).store.unfinalized = some (ekiW6b, 9) :=
  have h := tick_recovers_from_lost_registration wW6 cfgW6 (1100 * 1000000000)
    ⟨some ekiW6, some 3⟩ ⟨none, some (ekiW6, 3)⟩ ekiW6 3 ekiW6b 9
    rfl rfl (Or.inl rfl) rfl rfl rfl
  ⟨h.2.2.2.1, h.2.2.2.2.1⟩
